import Mathlib

/-!
Shallow embedding of `pkg/service/service.go` (LiveKit SIP service):
the dispatch-resolution protocol (`Service.DispatchCall`), the trunk
authentication protocol (`Service.GetAuthCredentials`), and the lifecycle
state machine (`Service.Stop`, `Service.Run`, `Service.CanAccept`).

Modelling conventions:
- RPC transports become explicit function arguments returning `Except`;
  the list of requests a call issues is returned alongside the result, so
  that "exactly one RPC request" is a provable statement.
- Go struct literals leave unmentioned string fields at their zero value
  `""`; the Lean structures use `:= ""` field defaults for this.
- The protobuf enum `SIPDispatchResult` is an integer wire value; we model
  it as `Int` with the five named constants, so that "a result code outside
  the known values" is expressible.
- The shutdown loop in `Service.Run` is unbounded (it polls every 5s until
  the active-call count drains); we model it with explicit fuel, returning
  `none` when the fuel is exhausted before the loop exits, and record the
  observable actions (deregister, gauge poll, sleep, stop callback, RPC
  server shutdown) as an event trace.
-/

set_option autoImplicit false

/-- `sip.CallInfo` as used by `Service.DispatchCall`: routing attributes of
one inbound call (fields read at service.go:153-158). -/
structure CallInfo where
  FromUser : String := ""
  ToUser : String := ""
  ToHost : String := ""
  SrcAddress : String := ""
  Pin : String := ""
  NoPin : Bool := false
deriving DecidableEq, Repr

/-- The four `sip.Dispatch*` outcome constants used by `DispatchCall`. -/
inductive DispatchResult where
  | DispatchAccept
  | DispatchRequestPin
  | DispatchNoRuleReject
  | DispatchNoRuleDrop
deriving DecidableEq, Repr

/-- `sip.CallDispatch` as constructed by `Service.DispatchCall`; fields not
mentioned in a Go composite literal stay at their zero value `""`. -/
structure CallDispatch where
  Result : DispatchResult
  RoomName : String := ""
  Identity : String := ""
  Name : String := ""
  Metadata : String := ""
  WsUrl : String := ""
  Token : String := ""
  TrunkID : String := ""
  DispatchRuleID : String := ""
deriving DecidableEq, Repr

/-- `rpc.EvaluateSIPDispatchRulesRequest` fields set at service.go:151-159. -/
structure EvaluateSIPDispatchRulesRequest where
  CallingNumber : String := ""
  CalledNumber : String := ""
  CalledHost : String := ""
  SrcAddress : String := ""
  Pin : String := ""
  NoPin : Bool := false
deriving DecidableEq, Repr

/-- The wire values of the protobuf enum `rpc.SIPDispatchResult`. -/
def SIPDispatchResult_LEGACY_ACCEPT_OR_PIN : Int := 0

def SIPDispatchResult_ACCEPT : Int := 1

def SIPDispatchResult_REQUEST_PIN : Int := 2

def SIPDispatchResult_REJECT : Int := 3

def SIPDispatchResult_DROP : Int := 4

/-- `rpc.EvaluateSIPDispatchRulesResponse` fields read at service.go:165-205. -/
structure EvaluateSIPDispatchRulesResponse where
  Result : Int := 0
  RequestPin : Bool := false
  RoomName : String := ""
  ParticipantIdentity : String := ""
  ParticipantName : String := ""
  ParticipantMetadata : String := ""
  WsUrl : String := ""
  Token : String := ""
  SipTrunkId : String := ""
  SipDispatchRuleId : String := ""
deriving DecidableEq, Repr

/-- The request `Service.DispatchCall` builds from a `CallInfo`
(service.go:151-159). -/
def dispatchRequest (info : CallInfo) : EvaluateSIPDispatchRulesRequest :=
  { CallingNumber := info.FromUser
    CalledNumber := info.ToUser
    CalledHost := info.ToHost
    SrcAddress := info.SrcAddress
    Pin := info.Pin
    NoPin := info.NoPin }

/-- `Service.DispatchCall` (service.go:150-207). The transport argument
models `psrpcClient.EvaluateSIPDispatchRules`. The first component is the
returned `sip.CallDispatch`; the second is the list of RPC requests the
call issued (the Go body issues exactly the one request it builds, with no
retry). The Go `switch` on `resp.Result` compares against distinct enum
constants, translated as an if-chain; the `default` branch is the final
`else`. -/
def DispatchCall {E : Type} (transport :
    EvaluateSIPDispatchRulesRequest → Except E EvaluateSIPDispatchRulesResponse)
    (info : CallInfo) : CallDispatch × List EvaluateSIPDispatchRulesRequest :=
  let req := dispatchRequest info
  match transport req with
  | Except.error _ => ({ Result := DispatchResult.DispatchNoRuleReject }, [req])
  | Except.ok resp =>
    let d : CallDispatch :=
      if resp.Result = SIPDispatchResult_LEGACY_ACCEPT_OR_PIN then
        if resp.RequestPin then
          { Result := DispatchResult.DispatchRequestPin }
        else
          { Result := DispatchResult.DispatchAccept
            RoomName := resp.RoomName
            Identity := resp.ParticipantIdentity
            Name := resp.ParticipantName
            Metadata := resp.ParticipantMetadata
            WsUrl := resp.WsUrl
            Token := resp.Token
            TrunkID := resp.SipTrunkId
            DispatchRuleID := resp.SipDispatchRuleId }
      else if resp.Result = SIPDispatchResult_ACCEPT then
        { Result := DispatchResult.DispatchAccept
          RoomName := resp.RoomName
          Identity := resp.ParticipantIdentity
          Name := resp.ParticipantName
          Metadata := resp.ParticipantMetadata
          WsUrl := resp.WsUrl
          Token := resp.Token
          TrunkID := resp.SipTrunkId
          DispatchRuleID := resp.SipDispatchRuleId }
      else if resp.Result = SIPDispatchResult_REQUEST_PIN then
        { Result := DispatchResult.DispatchRequestPin
          TrunkID := resp.SipTrunkId }
      else if resp.Result = SIPDispatchResult_REJECT then
        { Result := DispatchResult.DispatchNoRuleReject }
      else if resp.Result = SIPDispatchResult_DROP then
        { Result := DispatchResult.DispatchNoRuleDrop }
      else
        { Result := DispatchResult.DispatchNoRuleReject }
    (d, [req])

/-- `rpc.GetSIPTrunkAuthenticationRequest` fields set at service.go:136-141. -/
structure GetSIPTrunkAuthenticationRequest where
  From : String := ""
  To : String := ""
  ToHost : String := ""
  SrcAddress : String := ""
deriving DecidableEq, Repr

/-- `rpc.GetSIPTrunkAuthenticationResponse` fields read at service.go:147. -/
structure GetSIPTrunkAuthenticationResponse where
  Username : String := ""
  Password : String := ""
  Drop : Bool := false
deriving DecidableEq, Repr

/-- The request `Service.GetAuthCredentials` builds (service.go:136-141). -/
def authRequest (fromNum toNum toHost srcAddress : String) :
    GetSIPTrunkAuthenticationRequest :=
  { From := fromNum, To := toNum, ToHost := toHost, SrcAddress := srcAddress }

/-- `Service.GetAuthCredentials` (service.go:135-148). The transport
argument models `psrpcClient.GetSIPTrunkAuthentication`. Returns Go's
`(username, password, drop, err)` quadruple, with `err` as `Option E`,
together with the list of RPC requests issued. -/
def GetAuthCredentials {E : Type} (transport :
    GetSIPTrunkAuthenticationRequest → Except E GetSIPTrunkAuthenticationResponse)
    (fromNum toNum toHost srcAddress : String) :
    (String × String × Bool × Option E) × List GetSIPTrunkAuthenticationRequest :=
  let req := authRequest fromNum toNum toHost srcAddress
  match transport req with
  | Except.error e => (("", "", false, some e), [req])
  | Except.ok resp => ((resp.Username, resp.Password, resp.Drop, none), [req])

/-- The lifecycle fields of `Service` mutated or read by `Stop`, `Run` and
`CanAccept`: `shutdown core.Fuse` (a one-shot latch; `true` means broken)
and `killed atomic.Bool`. -/
structure ServiceState where
  shutdown : Bool
  killed : Bool
deriving DecidableEq, Repr

/-- A freshly constructed `Service` (`NewService`, service.go:59-81): the
fuse intact, `killed` at its zero value. -/
def initService : ServiceState :=
  { shutdown := false, killed := false }

/-- `Service.Stop` (service.go:83-86): `s.shutdown.Break()` latches the
fuse (idempotent), and `s.killed.Store(kill)` stores unconditionally, on
every call. -/
def Stop (s : ServiceState) (kill : Bool) : ServiceState :=
  { shutdown := true, killed := kill }

/-- `Service.CanAccept` (service.go:209-211): `!s.shutdown.IsBroken()`. -/
def CanAccept (s : ServiceState) : Bool :=
  !s.shutdown

/-- Observable actions of `Service.Run` after the shutdown fuse breaks
(service.go:114-132), plus the startup registration and the deferred RPC
server shutdown. -/
inductive ShutdownEvent where
  | register
  | deregister
  | pollGauge (activeCalls : Int)
  | sleep
  | stopCallback
  | rpcShutdown
deriving DecidableEq, Repr

/-- The `for`/`select` loop of `Service.Run` (service.go:114-132) once the
fuse is broken. Each iteration: deregister intake; if not killed, poll the
active-call gauge and, when the count is positive, sleep one period and
continue; otherwise invoke the stop callback and return. `gauge i` is the
value `sipServiceActiveCalls()` returns at its `i`-th invocation; `fuel`
bounds the unbounded Go loop, `none` meaning it did not exit within
`fuel` iterations. -/
def shutdownLoop (killed : Bool) (gauge : Nat → Int) :
    Nat → Nat → Option (List ShutdownEvent)
  | 0, _ => none
  | Nat.succ fuel, i =>
    if killed then
      some [ShutdownEvent.deregister, ShutdownEvent.stopCallback]
    else
      let activeCalls := gauge i
      if 0 < activeCalls then
        (shutdownLoop killed gauge fuel (i + 1)).map fun rest =>
          ShutdownEvent.deregister :: ShutdownEvent.pollGauge activeCalls ::
            ShutdownEvent.sleep :: rest
      else
        some [ShutdownEvent.deregister, ShutdownEvent.pollGauge activeCalls,
          ShutdownEvent.stopCallback]

/-- The observable event trace of `Service.Run` (service.go:88-133):
intake registration at startup (service.go:108), then the shutdown loop
once the fuse is broken, then the deferred `rpcSIPServer.Shutdown()`
(service.go:106). `killed` is the value the loop reads from the atomic,
i.e. the final state produced by the `Stop` calls. -/
def runService (killed : Bool) (gauge : Nat → Int) (fuel : Nat) :
    Option (List ShutdownEvent) :=
  (shutdownLoop killed gauge fuel 0).map fun tr =>
    ShutdownEvent.register :: (tr ++ [ShutdownEvent.rpcShutdown])

/-- Number of active-call gauge polls in a trace. -/
def pollCount (tr : List ShutdownEvent) : Nat :=
  tr.countP fun e =>
    match e with
    | ShutdownEvent.pollGauge _ => true
    | _ => false

/-- The trace of `n` drain iterations that observed a positive count,
starting at gauge invocation `i`. -/
def drainIters (gauge : Nat → Int) : Nat → Nat → List ShutdownEvent
  | _, 0 => []
  | i, Nat.succ n =>
    ShutdownEvent.deregister :: ShutdownEvent.pollGauge (gauge i) ::
      ShutdownEvent.sleep :: drainIters gauge (i + 1) n

/-- The methods of `Service` other than `Stop` never write the `shutdown`
fuse or the `killed` atomic: `Run` only reads them (service.go:116,120),
and `GetAuthCredentials`, `DispatchCall`, `CanAccept` and the topic
registration methods do not touch them. -/
inductive ServiceOp where
  | stop (kill : Bool)
  | run
  | getAuthCredentials
  | dispatchCall
  | canAccept
  | registerTopic
  | deregisterTopic
deriving DecidableEq, Repr

/-- Effect of each `Service` method on the lifecycle state: only `Stop`
writes it. -/
def applyOp (s : ServiceState) : ServiceOp → ServiceState
  | ServiceOp.stop kill => Stop s kill
  | ServiceOp.run => s
  | ServiceOp.getAuthCredentials => s
  | ServiceOp.dispatchCall => s
  | ServiceOp.canAccept => s
  | ServiceOp.registerTopic => s
  | ServiceOp.deregisterTopic => s

/-- Whether an operation is a `Stop` call. -/
def isStop : ServiceOp → Bool
  | ServiceOp.stop _ => true
  | _ => false

theorem shutdownLoop_true_eq (gauge : Nat → Int) (fuel i : Nat)
    (tr : List ShutdownEvent) (h : shutdownLoop true gauge fuel i = some tr) :
    tr = [ShutdownEvent.deregister, ShutdownEvent.stopCallback] := by
  cases fuel with
  | zero => simp [shutdownLoop] at h
  | succ fuel =>
    simp only [shutdownLoop, if_true] at h
    exact (Option.some.inj h).symm

theorem shutdownLoop_false_eq (gauge : Nat → Int) (fuel : Nat) :
    ∀ (i : Nat) (tr : List ShutdownEvent),
      shutdownLoop false gauge fuel i = some tr →
      ∃ n, (∀ m, m < n → 0 < gauge (i + m)) ∧ gauge (i + n) ≤ 0 ∧
        tr = drainIters gauge i n ++
          [ShutdownEvent.deregister, ShutdownEvent.pollGauge (gauge (i + n)),
            ShutdownEvent.stopCallback] := by
  induction fuel with
  | zero => intro i tr h; simp [shutdownLoop] at h
  | succ fuel ih =>
    intro i tr h
    simp only [shutdownLoop, Bool.false_eq_true, if_false] at h
    by_cases hg : 0 < gauge i
    · rw [if_pos hg] at h
      obtain ⟨rest, hrest, hmap⟩ := Option.map_eq_some'.mp h
      obtain ⟨n, hpos, hz, hre⟩ := ih (i + 1) rest hrest
      refine ⟨n + 1, ?_, ?_, ?_⟩
      · intro m hm
        cases m with
        | zero => simpa using hg
        | succ m =>
          have hlt : m < n := by omega
          have := hpos m hlt
          have harith : i + 1 + m = i + (m + 1) := by omega
          rwa [harith] at this
      · have harith : i + 1 + n = i + (n + 1) := by omega
        rwa [harith] at hz
      · subst hre
        rw [← hmap]
        have harith : i + 1 + n = i + (n + 1) := by omega
        simp [drainIters, harith]
    · rw [if_neg hg] at h
      refine ⟨0, by omega, by simpa using Int.not_lt.mp hg, ?_⟩
      simpa [drainIters] using (Option.some.inj h).symm

theorem drainIters_count_deregister (gauge : Nat → Int) (n : Nat) :
    ∀ i, (drainIters gauge i n).count ShutdownEvent.deregister = n := by
  induction n with
  | zero => intro i; simp [drainIters]
  | succ n ih => intro i; simp [drainIters, List.count_cons, ih]

theorem drainIters_pollCount (gauge : Nat → Int) (n : Nat) :
    ∀ i, pollCount (drainIters gauge i n) = n := by
  induction n with
  | zero => intro i; simp [drainIters, pollCount]
  | succ n ih =>
    intro i
    have := ih (i + 1)
    simp [drainIters, pollCount, List.countP_cons] at this ⊢
    omega

theorem drainIters_count_register (gauge : Nat → Int) (n : Nat) :
    ∀ i, (drainIters gauge i n).count ShutdownEvent.register = 0 := by
  induction n with
  | zero => intro i; simp [drainIters]
  | succ n ih => intro i; simp [drainIters, List.count_cons, ih (i + 1)]

theorem drainIters_stopCallback_not_mem (gauge : Nat → Int) (n : Nat) :
    ∀ i, ShutdownEvent.stopCallback ∉ drainIters gauge i n := by
  induction n with
  | zero => intro i; simp [drainIters]
  | succ n ih => intro i; simp [drainIters, ih (i + 1)]

theorem drainIters_rpcShutdown_not_mem (gauge : Nat → Int) (n : Nat) :
    ∀ i, ShutdownEvent.rpcShutdown ∉ drainIters gauge i n := by
  induction n with
  | zero => intro i; simp [drainIters]
  | succ n ih => intro i; simp [drainIters, ih (i + 1)]

theorem canAccept_foldl (ops : List ServiceOp) : ∀ s : ServiceState,
    CanAccept (ops.foldl applyOp s) = (CanAccept s && !ops.any isStop) := by
  induction ops with
  | nil => intro s; simp
  | cons op ops ih =>
    intro s
    rw [List.foldl_cons, List.any_cons, ih (applyOp s op)]
    cases op <;> simp [applyOp, isStop, Stop, CanAccept]

/-- C1 counterexample: the claim says the first `Stop` caller's kill intent
is authoritative and `Stop(false)` then `Stop(true)` drains like
`Stop(false)` alone. In the code `Stop` stores `kill` unconditionally on
every call, so after `Stop(false); Stop(true)` the shutdown loop observes
`killed = true` (not the first call's `false`), and with an active-call
gauge reporting 1 then 0 the run skips draining instead of polling. -/
theorem stop_first_caller_not_authoritative_cex :
    (Stop (Stop initService false) true).killed ≠ false ∧
    runService (Stop (Stop initService false) true).killed
        (fun i => if i = 0 then 1 else 0) 5 ≠
      runService (Stop initService false).killed
        (fun i => if i = 0 then 1 else 0) 5 := by
  constructor
  · decide
  · decide

/-- C1 (amended): `Stop` is a last-writer-wins gate: for every pair of
calls `Stop(k1)` then `Stop(k2)` the resulting state equals that of
`Stop(k2)` alone, so the recorded forced-kill intent the shutdown sequence
observes equals `k2`; the shutdown gate itself is latched (broken) by
either call, and the run trace matches that of `Stop(k2)` alone. -/
theorem stop_last_writer_wins (s : ServiceState) (k1 k2 : Bool)
    (gauge : Nat → Int) (fuel : Nat) :
    Stop (Stop s k1) k2 = Stop s k2 ∧
    (Stop (Stop s k1) k2).killed = k2 ∧
    (Stop (Stop s k1) k2).shutdown = true ∧
    runService (Stop (Stop s k1) k2).killed gauge fuel =
      runService (Stop s k2).killed gauge fuel :=
  ⟨rfl, rfl, rfl, rfl⟩

/-- C2: in every terminating shutdown execution (drain and forced-kill
paths alike, with a nonnegative active-call gauge), intake deregistration
occurs strictly before the stop callback, the stop callback occurs exactly
once and is followed only by the listener shutdown, and the stop callback
is reached only after either a forced kill was observed or the last gauge
poll observed an active-call count of zero. -/
theorem shutdown_ordering (killed : Bool) (gauge : Nat → Int) (fuel : Nat)
    (tr : List ShutdownEvent) (hg : ∀ i, 0 ≤ gauge i)
    (h : runService killed gauge fuel = some tr) :
    ∃ pre, tr = pre ++ [ShutdownEvent.stopCallback, ShutdownEvent.rpcShutdown] ∧
      ShutdownEvent.deregister ∈ pre ∧
      ShutdownEvent.stopCallback ∉ pre ∧
      ShutdownEvent.rpcShutdown ∉ pre ∧
      (killed = true ∨ pre.getLast? = some (ShutdownEvent.pollGauge 0)) := by
  obtain ⟨loopTr, hloop, htr⟩ := Option.map_eq_some'.mp h
  cases killed with
  | true =>
    have hl := shutdownLoop_true_eq gauge fuel 0 loopTr hloop
    subst hl
    refine ⟨[ShutdownEvent.register, ShutdownEvent.deregister], ?_, by simp, by simp,
      by simp, Or.inl rfl⟩
    rw [← htr]
    rfl
  | false =>
    obtain ⟨n, _, hz, hl⟩ := shutdownLoop_false_eq gauge fuel 0 loopTr hloop
    have hzero : gauge (0 + n) = 0 := le_antisymm hz (hg (0 + n))
    refine ⟨ShutdownEvent.register :: drainIters gauge 0 n ++
      [ShutdownEvent.deregister, ShutdownEvent.pollGauge 0], ?_, by simp, ?_, ?_, ?_⟩
    · rw [← htr, hl, hzero]
      simp
    · simp [drainIters_stopCallback_not_mem gauge n 0]
    · simp [drainIters_rpcShutdown_not_mem gauge n 0]
    · refine Or.inr ?_
      have : ShutdownEvent.register :: drainIters gauge 0 n ++
          [ShutdownEvent.deregister, ShutdownEvent.pollGauge 0] =
          (ShutdownEvent.register :: drainIters gauge 0 n ++
            [ShutdownEvent.deregister]) ++ [ShutdownEvent.pollGauge 0] := by simp
      rw [this, List.getLast?_concat]

/-- Witness for `shutdown_ordering`: graceful stop with a gauge that reads
zero immediately. -/
theorem shutdown_ordering_witness :
    ∃ pre, [ShutdownEvent.register, ShutdownEvent.deregister,
        ShutdownEvent.pollGauge 0, ShutdownEvent.stopCallback,
        ShutdownEvent.rpcShutdown] =
        pre ++ [ShutdownEvent.stopCallback, ShutdownEvent.rpcShutdown] ∧
      ShutdownEvent.deregister ∈ pre ∧
      ShutdownEvent.stopCallback ∉ pre ∧
      ShutdownEvent.rpcShutdown ∉ pre ∧
      (false = true ∨ pre.getLast? = some (ShutdownEvent.pollGauge 0)) :=
  shutdown_ordering false (fun _ => 0) 1 _ (fun _ => le_refl 0) rfl

/-- C7 counterexample: the claim says that whenever `Stop(true)` is the
first `Stop` call, shutdown skips draining, the gauge is invoked at most
once and the stop callback is reached without any poll-sleep. Because
`Stop` stores `kill` unconditionally, `Stop(true)` followed by
`Stop(false)` leaves `killed = false`, and with a gauge reading 1 then 0
the run polls the gauge twice and sleeps once before the stop callback. -/
theorem kill_first_then_graceful_cex :
    (Stop (Stop initService true) false).killed = false ∧
    ∃ tr, runService (Stop (Stop initService true) false).killed
        (fun i => if i = 0 then 1 else 0) 5 = some tr ∧
      2 ≤ pollCount tr ∧ ShutdownEvent.sleep ∈ tr := by
  refine ⟨rfl, [ShutdownEvent.register, ShutdownEvent.deregister,
    ShutdownEvent.pollGauge 1, ShutdownEvent.sleep, ShutdownEvent.deregister,
    ShutdownEvent.pollGauge 0, ShutdownEvent.stopCallback,
    ShutdownEvent.rpcShutdown], by decide, by decide, by decide⟩

/-- C7 (amended): if the kill flag the shutdown loop observes is `true` —
i.e. the last `Stop` call before the loop woke was `Stop(true)`, in
particular when it is the only `Stop` call — the shutdown sequence skips
draining entirely: the active-call gauge is never invoked (zero polls, in
particular at most one) and the stop callback is reached without any
poll-sleep, regardless of the (nonzero) counts the gauge would report. -/
theorem kill_skips_drain (gauge : Nat → Int) (fuel : Nat) (hf : 1 ≤ fuel) :
    ∃ tr, runService true gauge fuel = some tr ∧
      tr = [ShutdownEvent.register, ShutdownEvent.deregister,
        ShutdownEvent.stopCallback, ShutdownEvent.rpcShutdown] ∧
      pollCount tr = 0 ∧ ShutdownEvent.sleep ∉ tr := by
  cases fuel with
  | zero => omega
  | succ fuel =>
    exact ⟨[ShutdownEvent.register, ShutdownEvent.deregister,
      ShutdownEvent.stopCallback, ShutdownEvent.rpcShutdown], rfl, rfl,
      by decide, by decide⟩

/-- Witness for `kill_skips_drain`: a gauge stuck at the nonzero count 7
with one unit of fuel. -/
theorem kill_skips_drain_witness :
    ∃ tr, runService true (fun _ => 7) 1 = some tr ∧
      tr = [ShutdownEvent.register, ShutdownEvent.deregister,
        ShutdownEvent.stopCallback, ShutdownEvent.rpcShutdown] ∧
      pollCount tr = 0 ∧ ShutdownEvent.sleep ∉ tr :=
  kill_skips_drain (fun _ => 7) 1 (le_refl 1)

/-- C8 counterexample: the claim says intake deregistration is invoked at
most once across the controller's lifetime, and in particular exactly once
in a multi-iteration graceful drain. The loop body calls
`DeregisterCreateSIPParticipantTopic` on every iteration, so a drain whose
gauge reads 1 then 0 deregisters twice. -/
theorem deregister_once_per_iteration_cex :
    ∃ tr, runService false (fun i => if i = 0 then 1 else 0) 5 = some tr ∧
      tr.count ShutdownEvent.deregister = 2 := by
  refine ⟨[ShutdownEvent.register, ShutdownEvent.deregister,
    ShutdownEvent.pollGauge 1, ShutdownEvent.sleep, ShutdownEvent.deregister,
    ShutdownEvent.pollGauge 0, ShutdownEvent.stopCallback,
    ShutdownEvent.rpcShutdown], by decide, by decide⟩

/-- C8 (amended): across the controller's lifetime intake registration is
invoked exactly once (at startup), while intake deregistration is invoked
once per shutdown-loop iteration: exactly once on the forced-kill path,
and once per gauge poll on the drain path (hence at least once, and more
than once whenever the drain takes several poll iterations). -/
theorem register_once_deregister_per_iteration (killed : Bool)
    (gauge : Nat → Int) (fuel : Nat) (tr : List ShutdownEvent)
    (h : runService killed gauge fuel = some tr) :
    tr.count ShutdownEvent.register = 1 ∧
    (killed = true → tr.count ShutdownEvent.deregister = 1 ∧ pollCount tr = 0) ∧
    (killed = false → tr.count ShutdownEvent.deregister = pollCount tr ∧
      1 ≤ tr.count ShutdownEvent.deregister) := by
  obtain ⟨loopTr, hloop, htr⟩ := Option.map_eq_some'.mp h
  subst htr
  cases killed with
  | true =>
    have hl := shutdownLoop_true_eq gauge fuel 0 loopTr hloop
    subst hl
    refine ⟨by decide, fun _ => ⟨by decide, by decide⟩, fun hfalse => by simp at hfalse⟩
  | false =>
    obtain ⟨n, _, _, hl⟩ := shutdownLoop_false_eq gauge fuel 0 loopTr hloop
    subst hl
    refine ⟨?_, fun htrue => by simp at htrue, fun _ => ⟨?_, ?_⟩⟩
    · simp [List.count_cons, List.count_append, drainIters_count_register gauge n 0]
    · simp [List.count_cons, List.count_append, pollCount, List.countP_cons,
        List.countP_append, drainIters_count_deregister gauge n 0]
      have := drainIters_pollCount gauge n 0
      simp [pollCount] at this
      omega
    · simp [List.count_cons, List.count_append,
        drainIters_count_deregister gauge n 0]

/-- Witness for `register_once_deregister_per_iteration`: graceful stop
with a gauge that reads zero immediately. -/
theorem register_once_deregister_per_iteration_witness :
    ([ShutdownEvent.register, ShutdownEvent.deregister, ShutdownEvent.pollGauge 0,
        ShutdownEvent.stopCallback, ShutdownEvent.rpcShutdown] :
        List ShutdownEvent).count ShutdownEvent.register = 1 ∧
    (false = true → ([ShutdownEvent.register, ShutdownEvent.deregister,
        ShutdownEvent.pollGauge 0, ShutdownEvent.stopCallback,
        ShutdownEvent.rpcShutdown] : List ShutdownEvent).count
        ShutdownEvent.deregister = 1 ∧
      pollCount [ShutdownEvent.register, ShutdownEvent.deregister,
        ShutdownEvent.pollGauge 0, ShutdownEvent.stopCallback,
        ShutdownEvent.rpcShutdown] = 0) ∧
    (false = false → ([ShutdownEvent.register, ShutdownEvent.deregister,
        ShutdownEvent.pollGauge 0, ShutdownEvent.stopCallback,
        ShutdownEvent.rpcShutdown] : List ShutdownEvent).count
        ShutdownEvent.deregister =
        pollCount [ShutdownEvent.register, ShutdownEvent.deregister,
          ShutdownEvent.pollGauge 0, ShutdownEvent.stopCallback,
          ShutdownEvent.rpcShutdown] ∧
      1 ≤ ([ShutdownEvent.register, ShutdownEvent.deregister,
        ShutdownEvent.pollGauge 0, ShutdownEvent.stopCallback,
        ShutdownEvent.rpcShutdown] : List ShutdownEvent).count
        ShutdownEvent.deregister) :=
  register_once_deregister_per_iteration false (fun _ => 0) 1 _ rfl

/-- C10: `CanAccept` is `true` on the freshly constructed service and on
any state reached without a `Stop` call, and `false` after any `Stop`
call regardless of its kill argument; no other `Service` operation ever
flips it from `true` to `false`. Formally, after any sequence of service
operations starting from the initial state, `CanAccept` holds exactly
when the sequence contains no `Stop`. -/
theorem canAccept_true_until_stop (ops : List ServiceOp) :
    CanAccept (ops.foldl applyOp initService) = !ops.any isStop ∧
    CanAccept initService = true ∧
    (∀ s kill, CanAccept (Stop s kill) = false) := by
  refine ⟨?_, rfl, fun s kill => rfl⟩
  rw [canAccept_foldl ops initService]
  rfl

/-- C3: whenever the dispatch-evaluation transport call errors,
`DispatchCall` returns `{Result: DispatchNoRuleReject}` with every
optional field empty, having issued exactly the one RPC request it built
from the `CallInfo` — no retry. -/
theorem dispatch_transport_error_rejects {E : Type} (transport :
    EvaluateSIPDispatchRulesRequest → Except E EvaluateSIPDispatchRulesResponse)
    (info : CallInfo) (e : E)
    (h : transport (dispatchRequest info) = Except.error e) :
    DispatchCall transport info =
      ({ Result := DispatchResult.DispatchNoRuleReject, RoomName := "",
         Identity := "", Name := "", Metadata := "", WsUrl := "", Token := "",
         TrunkID := "", DispatchRuleID := "" }, [dispatchRequest info]) := by
  simp [DispatchCall, h]

/-- Witness for `dispatch_transport_error_rejects`: a transport that
always fails, on a concrete call. -/
theorem dispatch_transport_error_rejects_witness :
    DispatchCall (fun _ => (Except.error () :
        Except Unit EvaluateSIPDispatchRulesResponse))
      { FromUser := "1000", ToUser := "2000" } =
      ({ Result := DispatchResult.DispatchNoRuleReject, RoomName := "",
         Identity := "", Name := "", Metadata := "", WsUrl := "", Token := "",
         TrunkID := "", DispatchRuleID := "" },
       [dispatchRequest { FromUser := "1000", ToUser := "2000" }]) :=
  dispatch_transport_error_rejects (fun _ => Except.error ())
    { FromUser := "1000", ToUser := "2000" } () rfl

/-- C4 counterexample: the claim says the legacy accept-or-PIN branch with
the request-PIN flag set populates `TrunkID` from the response. The code
(service.go:170-172) returns `sip.CallDispatch{Result: DispatchRequestPin}`
with no `TrunkID`: for a response carrying `SipTrunkId = "trunk-1"`, the
returned dispatch has `TrunkID = ""`. -/
theorem legacy_pin_trunkid_cex :
    (DispatchCall (fun _ => (Except.ok
        { Result := SIPDispatchResult_LEGACY_ACCEPT_OR_PIN, RequestPin := true,
          SipTrunkId := "trunk-1" } :
        Except Unit EvaluateSIPDispatchRulesResponse)) {}).fst.TrunkID = "" ∧
    (DispatchCall (fun _ => (Except.ok
        { Result := SIPDispatchResult_LEGACY_ACCEPT_OR_PIN, RequestPin := true,
          SipTrunkId := "trunk-1" } :
        Except Unit EvaluateSIPDispatchRulesResponse)) {}).fst.TrunkID ≠
      "trunk-1" ∧
    (DispatchCall (fun _ => (Except.ok
        { Result := SIPDispatchResult_LEGACY_ACCEPT_OR_PIN, RequestPin := true,
          SipTrunkId := "trunk-1" } :
        Except Unit EvaluateSIPDispatchRulesResponse)) {}).fst.Result =
      DispatchResult.DispatchRequestPin := by
  refine ⟨by decide, by decide, by decide⟩

/-- C4 (amended): for every policy response whose result code is the
legacy accept-or-PIN value with the request-PIN flag set, `DispatchCall`
returns `{Result: DispatchRequestPin}` with every optional field empty —
including `TrunkID`, which (unlike in the non-legacy request-PIN branch)
is not copied from the response — regardless of the other fields of the
response, issuing exactly one RPC request. -/
theorem legacy_pin_all_fields_empty {E : Type} (transport :
    EvaluateSIPDispatchRulesRequest → Except E EvaluateSIPDispatchRulesResponse)
    (info : CallInfo) (resp : EvaluateSIPDispatchRulesResponse)
    (hok : transport (dispatchRequest info) = Except.ok resp)
    (hres : resp.Result = SIPDispatchResult_LEGACY_ACCEPT_OR_PIN)
    (hpin : resp.RequestPin = true) :
    DispatchCall transport info =
      ({ Result := DispatchResult.DispatchRequestPin, RoomName := "",
         Identity := "", Name := "", Metadata := "", WsUrl := "", Token := "",
         TrunkID := "", DispatchRuleID := "" }, [dispatchRequest info]) := by
  simp [DispatchCall, hok, hres, hpin]

/-- Witness for `legacy_pin_all_fields_empty`: a legacy response with the
PIN flag and a nonempty trunk id. -/
theorem legacy_pin_all_fields_empty_witness :
    DispatchCall (fun _ => (Except.ok
        { Result := SIPDispatchResult_LEGACY_ACCEPT_OR_PIN, RequestPin := true,
          RoomName := "room-a", SipTrunkId := "trunk-9" } :
        Except Unit EvaluateSIPDispatchRulesResponse)) {} =
      ({ Result := DispatchResult.DispatchRequestPin, RoomName := "",
         Identity := "", Name := "", Metadata := "", WsUrl := "", Token := "",
         TrunkID := "", DispatchRuleID := "" }, [dispatchRequest {}]) :=
  legacy_pin_all_fields_empty _ {} _ rfl rfl rfl

/-- C5: for every policy response whose result code is none of the five
known `SIPDispatchResult` values, `DispatchCall` returns
`{Result: DispatchNoRuleReject}` with no optional field populated; in
particular an unrecognized code never yields `DispatchAccept`. -/
theorem dispatch_unknown_result_rejects {E : Type} (transport :
    EvaluateSIPDispatchRulesRequest → Except E EvaluateSIPDispatchRulesResponse)
    (info : CallInfo) (resp : EvaluateSIPDispatchRulesResponse)
    (hok : transport (dispatchRequest info) = Except.ok resp)
    (h0 : resp.Result ≠ SIPDispatchResult_LEGACY_ACCEPT_OR_PIN)
    (h1 : resp.Result ≠ SIPDispatchResult_ACCEPT)
    (h2 : resp.Result ≠ SIPDispatchResult_REQUEST_PIN)
    (h3 : resp.Result ≠ SIPDispatchResult_REJECT)
    (h4 : resp.Result ≠ SIPDispatchResult_DROP) :
    DispatchCall transport info =
      ({ Result := DispatchResult.DispatchNoRuleReject, RoomName := "",
         Identity := "", Name := "", Metadata := "", WsUrl := "", Token := "",
         TrunkID := "", DispatchRuleID := "" }, [dispatchRequest info]) ∧
    (DispatchCall transport info).fst.Result ≠ DispatchResult.DispatchAccept := by
  have hd : DispatchCall transport info =
      ({ Result := DispatchResult.DispatchNoRuleReject }, [dispatchRequest info]) := by
    simp [DispatchCall, hok, h0, h1, h2, h3, h4]
  exact ⟨hd, by rw [hd]; simp⟩

/-- Witness for `dispatch_unknown_result_rejects`: result code 99 is none
of the five known values. -/
theorem dispatch_unknown_result_rejects_witness :
    DispatchCall (fun _ => (Except.ok { Result := 99, RoomName := "room-a" } :
        Except Unit EvaluateSIPDispatchRulesResponse)) {} =
      ({ Result := DispatchResult.DispatchNoRuleReject, RoomName := "",
         Identity := "", Name := "", Metadata := "", WsUrl := "", Token := "",
         TrunkID := "", DispatchRuleID := "" }, [dispatchRequest {}]) ∧
    (DispatchCall (fun _ => (Except.ok { Result := 99, RoomName := "room-a" } :
        Except Unit EvaluateSIPDispatchRulesResponse)) {}).fst.Result ≠
      DispatchResult.DispatchAccept :=
  dispatch_unknown_result_rejects _ {} _ rfl (by decide) (by decide) (by decide)
    (by decide) (by decide)

/-- C6: for every policy response without the request-PIN flag, the legacy
accept-or-PIN branch returns a `CallDispatch` field-for-field identical to
the plain accept branch on the same response: `DispatchAccept` with
`RoomName`, `Identity`, `Name`, `Metadata`, `WsUrl`, `Token`, `TrunkID`
and `DispatchRuleID` each copied verbatim from the response. -/
theorem legacy_accept_equiv (info : CallInfo)
    (resp : EvaluateSIPDispatchRulesResponse)
    (hpin : resp.RequestPin = false) :
    (DispatchCall (fun _ => (Except.ok
        { resp with Result := SIPDispatchResult_LEGACY_ACCEPT_OR_PIN } :
        Except Unit EvaluateSIPDispatchRulesResponse)) info).fst =
      (DispatchCall (fun _ => (Except.ok
          { resp with Result := SIPDispatchResult_ACCEPT } :
          Except Unit EvaluateSIPDispatchRulesResponse)) info).fst ∧
    (DispatchCall (fun _ => (Except.ok
        { resp with Result := SIPDispatchResult_LEGACY_ACCEPT_OR_PIN } :
        Except Unit EvaluateSIPDispatchRulesResponse)) info).fst =
      { Result := DispatchResult.DispatchAccept, RoomName := resp.RoomName,
        Identity := resp.ParticipantIdentity, Name := resp.ParticipantName,
        Metadata := resp.ParticipantMetadata, WsUrl := resp.WsUrl,
        Token := resp.Token, TrunkID := resp.SipTrunkId,
        DispatchRuleID := resp.SipDispatchRuleId } := by
  constructor <;> simp [DispatchCall, hpin]

/-- Witness for `legacy_accept_equiv`: a concrete accept-shaped response. -/
theorem legacy_accept_equiv_witness :
    (DispatchCall (fun _ => (Except.ok
        { Result := SIPDispatchResult_LEGACY_ACCEPT_OR_PIN,
          RoomName := "room-a", ParticipantIdentity := "caller-1000",
          SipTrunkId := "trunk-1", SipDispatchRuleId := "rule-1" } :
        Except Unit EvaluateSIPDispatchRulesResponse))
      { FromUser := "1000", ToUser := "2000" }).fst =
      (DispatchCall (fun _ => (Except.ok
          { Result := SIPDispatchResult_ACCEPT,
            RoomName := "room-a", ParticipantIdentity := "caller-1000",
            SipTrunkId := "trunk-1", SipDispatchRuleId := "rule-1" } :
          Except Unit EvaluateSIPDispatchRulesResponse))
        { FromUser := "1000", ToUser := "2000" }).fst ∧
    (DispatchCall (fun _ => (Except.ok
        { Result := SIPDispatchResult_LEGACY_ACCEPT_OR_PIN,
          RoomName := "room-a", ParticipantIdentity := "caller-1000",
          SipTrunkId := "trunk-1", SipDispatchRuleId := "rule-1" } :
        Except Unit EvaluateSIPDispatchRulesResponse))
      { FromUser := "1000", ToUser := "2000" }).fst =
      { Result := DispatchResult.DispatchAccept, RoomName := "room-a",
        Identity := "caller-1000", Name := "", Metadata := "", WsUrl := "",
        Token := "", TrunkID := "trunk-1", DispatchRuleID := "rule-1" } :=
  legacy_accept_equiv { FromUser := "1000", ToUser := "2000" }
    { RoomName := "room-a", ParticipantIdentity := "caller-1000",
      SipTrunkId := "trunk-1", SipDispatchRuleId := "rule-1" } rfl

/-- C9: `GetAuthCredentials` performs a single RPC round trip; on
transport failure it returns the transport error unmodified (with zero
credentials), and on success it returns the response's username, password
and drop flag with no error. -/
theorem getAuthCredentials_spec {E : Type} (transport :
    GetSIPTrunkAuthenticationRequest → Except E GetSIPTrunkAuthenticationResponse)
    (fromNum toNum toHost srcAddress : String) :
    (GetAuthCredentials transport fromNum toNum toHost srcAddress).snd =
      [authRequest fromNum toNum toHost srcAddress] ∧
    (∀ e, transport (authRequest fromNum toNum toHost srcAddress) =
        Except.error e →
      (GetAuthCredentials transport fromNum toNum toHost srcAddress).fst =
        ("", "", false, some e)) ∧
    (∀ resp, transport (authRequest fromNum toNum toHost srcAddress) =
        Except.ok resp →
      (GetAuthCredentials transport fromNum toNum toHost srcAddress).fst =
        (resp.Username, resp.Password, resp.Drop, none)) := by
  refine ⟨?_, fun e he => ?_, fun resp hr => ?_⟩
  · cases h : transport (authRequest fromNum toNum toHost srcAddress) <;>
      simp [GetAuthCredentials, h]
  · simp [GetAuthCredentials, he]
  · simp [GetAuthCredentials, hr]

/-- Witness for `getAuthCredentials_spec`: a transport that fails with
error 7 — the error comes back unmodified. -/
theorem getAuthCredentials_spec_witness :
    (GetAuthCredentials (fun _ => (Except.error 7 :
        Except Nat GetSIPTrunkAuthenticationResponse)) "f" "t" "h" "s").fst =
      ("", "", false, some 7) :=
  (getAuthCredentials_spec (fun _ => Except.error 7) "f" "t" "h" "s").2.1 7 rfl
